import Mathlib

/-!
Shallow embedding of the valenpii particle engine
(`ParticleSystem`, `ShapeGenerator`, `ShakeController`, `BloomController`)
and proofs of the spec's testable properties against it.

Coordinates are modelled as real numbers; `Math.random()` draws are
modelled as an explicit stream of reals in `[0,1)` passed to each
operation (indices into the stream are arbitrary but fixed).  Times
(`Date.now()`) are integer milliseconds.  Gesture arithmetic that the
spec discusses under IEEE-754 semantics (division by zero, `NaN`
propagation) is modelled separately by the `JSNum` type.
-/

namespace Valenpii

/-- Particle role, fixed at creation: `"shape"` or `"background"`. -/
inductive Role where
  | shape
  | background
deriving DecidableEq

/-- Particle behaviour state: `"chaos"`, `"forming"` or `"blooming"`. -/
inductive PState where
  | chaos
  | forming
  | blooming
deriving DecidableEq

/-- One particle record, exactly the fields pushed by
`ParticleSystem.createPool`. -/
structure Particle where
  x : ℝ
  y : ℝ
  z : ℝ
  vx : ℝ
  vy : ℝ
  vz : ℝ
  role : Role
  state : PState
  baseSize : ℝ
  twinkleSpeed : ℝ
  twinkleOffset : ℝ
  bloomX : ℝ
  bloomY : ℝ
  bloomZ : ℝ
  bloomMix : ℝ
  shapeX : ℝ
  shapeY : ℝ
  shapeZ : ℝ
  shapeMix : ℝ

/-- One interaction pulse (shockwave), as pushed by
`ParticleSystem.addPulse`. -/
structure Pulse where
  x : ℝ
  y : ℝ
  strength : ℝ
  maxRadius : ℝ
  life : ℝ

/-- The particle-system state: the fixed capacity, the particle pool and
the live pulses. -/
structure PSystem where
  maxParticles : ℕ
  particles : List Particle
  pulses : List Pulse

/-- The spec's linear interpolation `lerp(a, b, t)`. -/
noncomputable def lerp (a b t : ℝ) : ℝ := a + (b - a) * t

/-- Stage 1 of the blended rendering in `ParticleSystem.update`:
`render = p * (1 - shapeMix) + shapeTarget * shapeMix`, componentwise. -/
noncomputable def shapeBlend (p : Particle) : ℝ × ℝ × ℝ :=
  (p.x * (1 - p.shapeMix) + p.shapeX * p.shapeMix,
   p.y * (1 - p.shapeMix) + p.shapeY * p.shapeMix,
   p.z * (1 - p.shapeMix) + p.shapeZ * p.shapeMix)

/-- The full blended render position written to the position attribute by
`ParticleSystem.update`: the stage-1 blend overlaid with the bloom layer,
`render = stage1 * (1 - bloomMix) + bloomTarget * bloomMix`. -/
noncomputable def renderPos (p : Particle) : ℝ × ℝ × ℝ :=
  ((shapeBlend p).1 * (1 - p.bloomMix) + p.bloomX * p.bloomMix,
   (shapeBlend p).2.1 * (1 - p.bloomMix) + p.bloomY * p.bloomMix,
   (shapeBlend p).2.2 * (1 - p.bloomMix) + p.bloomZ * p.bloomMix)

/-- One particle of `ParticleSystem.createPool`: index `i` against the
70 percent shape limit decides the role; background stars spawn on a
600 - 1800 shell drifting inward, shape stars on a 1000 - 2000 shell with
a random planar impulse.  `r` is the stream of `Math.random()` draws used
by this particle. -/
noncomputable def initParticle (r : ℕ → ℝ) (isMobile : Bool) (shapeLimit : ℕ)
    (i : ℕ) : Particle :=
  let role := if i < shapeLimit then Role.shape else Role.background
  let radius := if i < shapeLimit then 1000 + r 0 * 1000 else 600 + r 0 * 1200
  let theta := r 1 * (2 * Real.pi)
  let phi := Real.arccos (2 * r 2 - 1)
  let rx := radius * Real.sin phi * Real.cos theta
  let ry := radius * Real.sin phi * Real.sin theta
  let rz := radius * Real.cos phi
  let vx := if i < shapeLimit then Real.cos (r 4 * (2 * Real.pi)) * (120 + r 3 * 80)
            else -(rx / radius) * (120 + r 3 * 100)
  let vy := if i < shapeLimit then Real.sin (r 4 * (2 * Real.pi)) * (120 + r 3 * 80)
            else -(ry / radius) * (120 + r 3 * 100)
  let vz := if i < shapeLimit then (r 5 - 1/2) * (120 + r 3 * 80)
            else -(rz / radius) * (120 + r 3 * 100)
  { x := rx, y := ry, z := rz, vx := vx, vy := vy, vz := vz,
    role := role, state := PState.chaos,
    baseSize := if isMobile then r 6 * 12 + 8 else r 6 * 8 + 4,
    twinkleSpeed := r 7 * (5/100) + 1/100,
    twinkleOffset := r 8 * (2 * Real.pi),
    bloomX := 0, bloomY := 0, bloomZ := 0, bloomMix := 0,
    shapeX := rx, shapeY := ry, shapeZ := rz, shapeMix := 0 }

/-- `ParticleSystem.createPool`: rebuilds the pool with exactly
`maxParticles` records, the first `floor(0.7 * maxParticles)` of them in
the `shape` role. -/
noncomputable def createPool (rng : ℕ → ℝ) (isMobile : Bool)
    (maxParticles : ℕ) : List Particle :=
  (List.range maxParticles).map fun i =>
    initParticle (fun k => rng (16 * i + k)) isMobile
      (Nat.floor ((maxParticles : ℝ) * (7/10))) i

/-- The shockwave-shell velocity kick one pulse gives one particle in
`ParticleSystem.update` (perspective-aware, Phase 65/68).  `r` is the
`Math.random()` draw for the z-kick. -/
noncomputable def pulseKick (dt : ℝ) (pu : Pulse) (r : ℝ) (p : Particle) :
    Particle :=
  let perspectiveFactor := 600 / max 1 (600 - p.z)
  let apparentX := p.x * perspectiveFactor
  let apparentY := p.y * perspectiveFactor
  let dx := apparentX - pu.x
  let dy := apparentY - pu.y
  let distSq := dx * dx + dy * dy
  let age := 1 - pu.life
  let currentRadius := pu.maxRadius * age
  let dist := Real.sqrt distSq
  let thickness : ℝ := 70
  let diff := |dist - currentRadius|
  if diff < thickness then
    let force := (1 - diff / thickness) * pu.strength * pu.life * dt
    let mag := if dist = 0 then 1 else dist
    { p with vx := p.vx + dx / mag * force * (1 / perspectiveFactor),
             vy := p.vy + dy / mag * force * (1 / perspectiveFactor),
             vz := p.vz + (r - 1/2) * force * (1/2) }
  else p

/-- All pulse kicks applied to one particle, in list order. -/
noncomputable def applyPulses (rng : ℕ → ℝ) (dt : ℝ) (pulses : List Pulse)
    (p : Particle) : Particle :=
  pulses.enum.foldl (fun acc jpu => pulseKick dt jpu.2 (rng jpu.1) acc) p

/-- The base chaos physics of `ParticleSystem.update`: friction 0.992,
the background minimum-vitality boost plus jitter, and Brownian jitter
for shape stars.  Applies only in the `chaos` state. -/
noncomputable def chaosPhysics (rng : ℕ → ℝ) (p : Particle) : Particle :=
  if p.state = PState.chaos then
    let friction : ℝ := 992/1000
    let vx := p.vx * friction
    let vy := p.vy * friction
    let vz := p.vz * friction
    if p.role = Role.background then
      let speedSq := vx * vx + vy * vy + vz * vz
      if speedSq < 1600 then
        let boost : ℝ := 105/100
        { p with vx := vx * boost + (rng 0 - 1/2) * 5,
                 vy := vy * boost + (rng 1 - 1/2) * 5,
                 vz := vz * boost + (rng 2 - 1/2) * 5 }
      else { p with vx := vx, vy := vy, vz := vz }
    else
      { p with vx := vx + (rng 0 - 1/2) * 2,
               vy := vy + (rng 1 - 1/2) * 2,
               vz := vz + (rng 2 - 1/2) * 2 }
  else p

/-- Position integration `p += v * dt` in `ParticleSystem.update`. -/
noncomputable def integrate (dt : ℝ) (p : Particle) : Particle :=
  { p with x := p.x + p.vx * dt, y := p.y + p.vy * dt, z := p.z + p.vz * dt }

/-- Atmospheric drift: slow rotation about the y axis, background
particles only. -/
noncomputable def backgroundRotate (dt : ℝ) (p : Particle) : Particle :=
  if p.role = Role.background then
    let rotSpeed := (15/100) * dt
    { p with x := p.x * Real.cos rotSpeed - p.z * Real.sin rotSpeed,
             z := p.x * Real.sin rotSpeed + p.z * Real.cos rotSpeed }
  else p

/-- Boundary recycling in `ParticleSystem.update` (Phase 64): respawn on
the 2500 shell, velocity aimed at a random point of the 1500 - 2500
outer ring at speed `120 + random() * 150`.  `r1 .. r6` are the six
`Math.random()` draws in source order. -/
noncomputable def recycleParticle (r1 r2 r3 r4 r5 r6 : ℝ) (p : Particle) :
    Particle :=
  let theta := r1 * (2 * Real.pi)
  let phi := Real.arccos (2 * r2 - 1)
  let spawnDist : ℝ := 2500
  let px := spawnDist * Real.sin phi * Real.cos theta
  let py := spawnDist * Real.sin phi * Real.sin theta
  let pz := spawnDist * Real.cos phi
  let targetRadius := 1500 + r3 * 1000
  let targetTheta := r4 * (2 * Real.pi)
  let targetPhi := Real.arccos (2 * r5 - 1)
  let targetX := targetRadius * Real.sin targetPhi * Real.cos targetTheta
  let targetY := targetRadius * Real.sin targetPhi * Real.sin targetTheta
  let targetZ := targetRadius * Real.cos targetPhi
  let dx := targetX - px
  let dy := targetY - py
  let dz := targetZ - pz
  let m := Real.sqrt (dx * dx + dy * dy + dz * dz)
  let dMag := if m = 0 then 1 else m
  let speed := 120 + r6 * 150
  { p with x := px, y := py, z := pz,
           vx := dx / dMag * speed,
           vy := dy / dMag * speed,
           vz := dz / dMag * speed }

/-- The squared distance from the origin computed every tick. -/
noncomputable def distSqOf (p : Particle) : ℝ := p.x * p.x + p.y * p.y + p.z * p.z

/-- The domain limit `4000 * 4000` of the boundary recycler. -/
noncomputable def limitSq : ℝ := 4000 * 4000

/-- The recycle check run on every particle every tick. -/
noncomputable def applyBoundary (r1 r2 r3 r4 r5 r6 : ℝ) (p : Particle) :
    Particle :=
  if distSqOf p > limitSq then recycleParticle r1 r2 r3 r4 r5 r6 p else p

/-- The per-particle render scale of `ParticleSystem.update`: twinkle,
heartbeat and state-dependent glow boost. -/
noncomputable def particleScale (time : ℝ) (p : Particle) : ℝ :=
  let twinkle := Real.sin (time * p.twinkleSpeed + p.twinkleOffset) * (1/2) + 1/2
  let beat := Real.sin (time * 3) * (1/2) + 1/2
  let beatScale := 1 + beat * (15/100)
  let scale := (6/10) + twinkle * (4/10)
  let scale :=
    if p.state = PState.blooming ∨ p.state = PState.forming then
      scale * ((11/10) * beatScale)
    else if p.state = PState.chaos then scale * (18/10)
    else scale
  p.baseSize * scale

/-- The whole per-particle pass of `ParticleSystem.update`: pulse kicks,
chaos physics, integration, background rotation, then boundary
recycling. -/
noncomputable def stepParticle (rng : ℕ → ℝ) (dt : ℝ) (pulses : List Pulse)
    (p : Particle) : Particle :=
  let p1 := applyPulses rng dt pulses p
  let p2 := chaosPhysics (fun k => rng (16 + k)) p1
  let p3 := integrate dt p2
  let p4 := backgroundRotate dt p3
  applyBoundary (rng 20) (rng 21) (rng 22) (rng 23) (rng 24) (rng 25) p4

/-- `ParticleSystem.addPulse`: push a pulse with `life = 1.0`; if the list
then holds more than 10, shift off the oldest. -/
noncomputable def addPulse (x y strength radius : ℝ) (pulses : List Pulse) :
    List Pulse :=
  let pulses' := pulses ++ [⟨x, y, strength, radius, 1⟩]
  if pulses'.length > 10 then pulses'.tail else pulses'

/-- The end-of-update pulse pass: decay every life by `dt * 1.5`, then
keep only pulses with `life > 0`. -/
noncomputable def decayPulses (dt : ℝ) (pulses : List Pulse) : List Pulse :=
  (pulses.map fun pu => { pu with life := pu.life - dt * (3/2) }).filter
    fun pu => 0 < pu.life

/-- `n` ticks of the pulse decay-and-prune pass. -/
noncomputable def decayIter (dt : ℝ) (n : ℕ) (pulses : List Pulse) : List Pulse :=
  (decayPulses dt)^[n] pulses

/-- `ParticleSystem.update`: one tick over the whole system.  Returns the
new system state together with the render positions and render sizes
written to the geometry attributes. -/
noncomputable def updateSystem (rng : ℕ → ℝ) (dt time : ℝ)
    (mouse : Option (ℝ × ℝ)) (sys : PSystem) :
    PSystem × List (ℝ × ℝ × ℝ) × List ℝ :=
  let particles' := sys.particles.enum.map fun ip =>
    stepParticle (fun k => rng (1 + 32 * ip.1 + k)) dt sys.pulses ip.2
  let renders := particles'.map renderPos
  let sizes := particles'.map (particleScale time)
  let pulses' := decayPulses dt sys.pulses
  let pulses'' :=
    match mouse with
    | some m => if rng 0 > 7/10 then addPulse (m.1 * 450) (m.2 * 460) 80 150 pulses'
                else pulses'
    | none => pulses'
  ({ sys with particles := particles', pulses := pulses'' }, renders, sizes)

/-! ### ShapeGenerator -/

/-- `ShapeGenerator.generateHeartPoints`: `numPoints` samples of the
parametric heart curve `x = 16 sin^3 t`,
`y = -(13 cos t - 5 cos 2t - 2 cos 3t - cos 4t)`, scaled by `size / 16`
and spread by a random box jitter of thickness 40 (80 in z).  Unlike
`generateTextPoints`, the result is NOT passed through `centerPoints`. -/
noncomputable def generateHeartPoints (rng : ℕ → ℝ) (cx cy size : ℝ)
    (numPoints : ℕ) : List (ℝ × ℝ × ℝ) :=
  (List.range numPoints).map fun (i : ℕ) =>
    let t := ((i : ℝ) / (numPoints : ℝ)) * (2 * Real.pi)
    let hx := 16 * Real.sin t ^ 3
    let hy := -(13 * Real.cos t - 5 * Real.cos (2 * t) - 2 * Real.cos (3 * t) -
      Real.cos (4 * t))
    let baseX := cx + hx * (size / 16)
    let baseY := cy + hy * (size / 16)
    let thickness : ℝ := 40
    let dx := (rng (3 * i) - 1/2) * thickness
    let dy := (rng (3 * i + 1) - 1/2) * thickness
    let dz := (rng (3 * i + 2) - 1/2) * thickness * 2
    (baseX + dx, baseY + dy, dz)

/-- The y coordinates of a point list. -/
noncomputable def ysOf (pts : List (ℝ × ℝ × ℝ)) : List ℝ :=
  pts.map fun p => p.2.1

/-- Minimum of a coordinate list (the `minY` fold of
`ShapeGenerator.centerPoints`); 0 on the empty list. -/
noncomputable def listMin : List ℝ → ℝ
  | [] => 0
  | a :: l => l.foldl min a

/-- Maximum of a coordinate list (the `maxY` fold of
`ShapeGenerator.centerPoints`); 0 on the empty list. -/
noncomputable def listMax : List ℝ → ℝ
  | [] => 0
  | a :: l => l.foldl max a

/-- The y bounding-box centroid `minY + (maxY - minY) / 2` that
`ShapeGenerator.centerPoints` subtracts when it is called. -/
noncomputable def bboxCenterY (pts : List (ℝ × ℝ × ℝ)) : ℝ :=
  listMin (ysOf pts) + (listMax (ysOf pts) - listMin (ysOf pts)) / 2

/-! ### BloomController -/

/-- `clamp01`, the clamping the spec names. -/
noncomputable def clamp01 (t : ℝ) : ℝ := min 1 (max 0 t)

/-- The pinch sensitivity constant `0.8` of
`BloomController.onTouchMove`. -/
noncomputable def bloomSensitivity : ℝ := 8/10

/-- The bloom factor computed by `BloomController.onTouchMove`:
`min(1, max(0, (currentDistance / initialDistance - 1) * 0.8))`. -/
noncomputable def touchBloomFactor (currentDistance initialDistance : ℝ) : ℝ :=
  min 1 (max 0 ((currentDistance / initialDistance - 1) * (8/10)))

/-- The bloom factor as a function of the distance ratio alone. -/
noncomputable def ratioBloomFactor (ratio : ℝ) : ℝ :=
  min 1 (max 0 ((ratio - 1) * (8/10)))

/-- The bloom factor update of `BloomController.onWheel`: the clamped
wheel delta is scaled by sensitivity 0.001 and accumulated, clamped. -/
noncomputable def wheelBloomFactor (prev delta : ℝ) : ℝ :=
  min 1 (max 0 (prev + min 100 (max (-100) delta) * (1/1000)))

/-- The bloom factor of the desktop shift-drag simulation
(`BloomController.onMouseMove`). -/
noncomputable def mouseBloomFactor (lastMouseY clientY : ℝ) : ℝ :=
  min 1 (max 0 ((lastMouseY - clientY) * 3 / 200))

/-- gsap `power2.out` easing. -/
noncomputable def power2Out (t : ℝ) : ℝ := 1 - (1 - t) ^ 2

/-- gsap `power3.out` easing. -/
noncomputable def power3Out (t : ℝ) : ℝ := 1 - (1 - t) ^ 3

/-- `bloomMix` during the forward leg of the celebration burst
(`gsap.to(bloomParticles, bloomMix := 1.1, ease power2.out, yoyo)`):
interpolates from the mix at trigger time toward `1.1`, at eased
progress `e`. -/
noncomputable def celebrationBloomMix (start e : ℝ) : ℝ :=
  start + (11/10 - start) * power2Out e

/-- `shapeMix` written by the formation tween of
`ShakeController.startShaking`: a shared proxy value animated from 0 to 1
with `power3.out` over 1 second, copied onto every still-forming
particle. -/
noncomputable def formationShapeMix (progress : ℝ) : ℝ := power3Out progress

/-- The per-particle assignment of `BloomController.updateBloom`:
bloom target recomputed from the anchor and the shape point, and
`bloomMix := bloomFactor`. -/
noncomputable def updateBloomParticle (center3D : ℝ × ℝ) (target : ℝ × ℝ × ℝ)
    (f : ℝ) (p : Particle) : Particle :=
  { p with bloomX := center3D.1 + target.1,
           bloomY := center3D.2 - target.2.1,
           bloomZ := target.2.2,
           bloomMix := f }

/-- The per-particle initialisation of
`BloomController.prepareBloomParticles` (Phase 57): state `blooming`,
drift stopped, bloom target seeded with the current position at
`bloomMix = 0`. -/
noncomputable def prepareBloomParticle (p : Particle) : Particle :=
  { p with state := PState.blooming, vx := 0, vy := 0, vz := 0,
           bloomX := p.x, bloomY := p.y, bloomZ := p.z, bloomMix := 0 }

/-- The per-particle release/explosion of `BloomController.onTouchEnd`
(Phase 58): the base position captures the fully blended visual position
(shape layer then bloom layer), both mixes are zeroed, and a randomized
outward impulse of magnitude `180 + random() * 120` is applied. -/
noncomputable def bloomReleaseParticle (r1 r2 r3 : ℝ) (p : Particle) :
    Particle :=
  let baseX := p.x * (1 - p.shapeMix) + p.shapeX * p.shapeMix
  let baseY := p.y * (1 - p.shapeMix) + p.shapeY * p.shapeMix
  let baseZ := p.z * (1 - p.shapeMix) + p.shapeZ * p.shapeMix
  let mix := p.bloomMix
  let impulse := 180 + r1 * 120
  let angle := r2 * (2 * Real.pi)
  { p with x := baseX * (1 - mix) + p.bloomX * mix,
           y := baseY * (1 - mix) + p.bloomY * mix,
           z := baseZ * (1 - mix) + p.bloomZ * mix,
           bloomMix := 0, shapeMix := 0, state := PState.chaos,
           vx := Real.cos angle * impulse,
           vy := Real.sin angle * impulse,
           vz := (r3 - 1/2) * impulse }

/-! ### ShakeController -/

/-- The controller fields of `ShakeController` that drive the shake state
machine, together with the particle pool it mutates. -/
structure ShakeState where
  isReady : Bool
  isShaking : Bool
  lastShakeTime : ℤ
  currentShapeIndex : ℕ
  particles : List Particle

/-- `this.shakeThreshold = 8`: the start threshold. -/
noncomputable def shakeThreshold : ℝ := 8

/-- The sustain threshold `3.0` of `ShakeController.handleShake`. -/
noncomputable def sustainThreshold : ℝ := 3

/-- `this.sustainTimeout = 1500` milliseconds. -/
def sustainTimeout : ℤ := 1500

/-- The shape-target assignment of `ShakeController.startShaking` for
particle `i`: shape-role particles with a point get the target (y
flipped) and stop, forming; shape-role particles past the point set fall
back to chaos with `shapeMix = 0` unless already in chaos or blooming. -/
noncomputable def startShakingParticle (points : List (ℝ × ℝ × ℝ)) (i : ℕ)
    (p : Particle) : Particle :=
  if p.role ≠ Role.shape then p
  else if h : i < points.length then
    let pt := points.get ⟨i, h⟩
    { p with state := PState.forming,
             shapeX := pt.1, shapeY := -pt.2.1, shapeZ := pt.2.2,
             vx := 0, vy := 0, vz := 0 }
  else if p.state ≠ PState.chaos ∧ p.state ≠ PState.blooming then
    { p with state := PState.chaos, shapeMix := 0 }
  else p

/-- The per-particle explosion loop of `ShakeController.stopShaking`: the
base position is set to the SHAPE TARGET coordinates, `shapeMix` is
zeroed and a randomized outward impulse of magnitude
`150 + random() * 150` is written.  (Contrast `bloomReleaseParticle`,
which captures the blended position.  The impulse written here is
immediately overwritten by the trailing `setChaosMode` pass of
`stopShaking`.) -/
noncomputable def stopShakeExplodeParticle (r1 r2 r3 : ℝ) (p : Particle) :
    Particle :=
  let impulse := 150 + r1 * 150
  let angle := r2 * (2 * Real.pi)
  { p with x := p.shapeX, y := p.shapeY, z := p.shapeZ,
           shapeMix := 0, state := PState.chaos,
           vx := Real.cos angle * impulse,
           vy := Real.sin angle * impulse,
           vz := (r3 - 1/2) * impulse }

/-- `ShakeController.startShaking` effect on the controller state:
`isShaking := true` and every particle runs the target assignment. -/
noncomputable def startShaking (points : List (ℝ × ℝ × ℝ)) (s : ShakeState) :
    ShakeState :=
  let particles' := s.particles.enum.map fun ip =>
    startShakingParticle points ip.1 ip.2
  { s with isShaking := true, particles := particles' }

/-- One particle of `ShakeController.setChaosMode`: blooming particles
are skipped; every other particle is dropped to chaos, and then either
(initial call) repositioned onto a random 600 - 1800 shell, or
(non-initial call) given a fresh random impulse of magnitude
`120 + random() * 80`.  The initial branch's color-attribute writes go
to the render color array, not to the particle record.  `r` is the
stream of `Math.random()` draws for this particle. -/
noncomputable def setChaosModeParticle (initial : Bool) (r : ℕ → ℝ)
    (p : Particle) : Particle :=
  if p.state = PState.blooming then p
  else
    let radius := 600 + r 0 * 1200
    let theta := r 1 * (2 * Real.pi)
    let phi := Real.arccos (2 * r 2 - 1)
    let tx := radius * Real.sin phi * Real.cos theta
    let ty := radius * Real.sin phi * Real.sin theta
    let tz := radius * Real.cos phi
    if initial then
      { p with state := PState.chaos, x := tx, y := ty, z := tz }
    else
      let impulse := 120 + r 3 * 80
      let angle := r 4 * (2 * Real.pi)
      { p with state := PState.chaos,
               vx := Real.cos angle * impulse,
               vy := Real.sin angle * impulse,
               vz := (r 5 - 1/2) * impulse }

/-- `ShakeController.stopShaking`: leave the shaking state, advance the
shape rotation, explode every forming particle, then run the trailing
`setChaosMode()` pass, which overwrites every non-blooming particle's
velocity with a fresh `120 + random() * 80` impulse. -/
noncomputable def stopShaking (rng : ℕ → ℝ) (s : ShakeState) : ShakeState :=
  let particles' := s.particles.enum.map fun ip =>
    if ip.2.state = PState.forming then
      stopShakeExplodeParticle (rng (3 * ip.1)) (rng (3 * ip.1 + 1))
        (rng (3 * ip.1 + 2)) ip.2
    else ip.2
  let particles'' := particles'.enum.map fun ip =>
    setChaosModeParticle false (fun k => rng (131072 + 8 * ip.1 + k)) ip.2
  { s with isShaking := false,
           currentShapeIndex := (s.currentShapeIndex + 1) % 3,
           particles := particles'' }

/-- `ShakeController.handleShake`: ignored until the warm-up guard
(`isReady`); a magnitude above the start threshold refreshes the rolling
timestamp and starts shaking if idle; while shaking, a magnitude above
the sustain threshold refreshes the timestamp. -/
noncomputable def handleShake (points : List (ℝ × ℝ × ℝ)) (now : ℤ)
    (magnitude : ℝ) (s : ShakeState) : ShakeState :=
  if s.isReady = false then s
  else if magnitude > shakeThreshold then
    let s' := { s with lastShakeTime := now }
    if s'.isShaking = false then startShaking points s' else s'
  else if s.isShaking = true ∧ magnitude > sustainThreshold then
    { s with lastShakeTime := now }
  else s

/-- The heartbeat jitter `ShakeController.update` adds to forming
particles every tick. -/
noncomputable def shakeFormingJitter (time r1 r2 r3 : ℝ) (p : Particle) :
    Particle :=
  if p.state = PState.forming then
    let beat := Real.sin (time * 3) ^ 60
    let beatTranslate := beat * (3/2)
    { p with x := p.x + (r1 - 1/2) * (3/2 + beatTranslate),
             y := p.y + (r2 - 1/2) * (3/2 + beatTranslate),
             z := p.z + (r3 - 1/2) * (2 + beatTranslate) }
  else p

/-- `ShakeController.update`: fire the sustain-timeout transition
(`stopShaking`) when no qualifying sample has arrived for longer than
`sustainTimeout`, then apply the forming-heartbeat jitter. -/
noncomputable def shakeUpdate (rng : ℕ → ℝ) (now : ℤ) (time : ℝ)
    (s : ShakeState) : ShakeState :=
  let s1 := if s.isShaking = true ∧ now - s.lastShakeTime > sustainTimeout then
    stopShaking rng s else s
  let particles' := s1.particles.enum.map fun ip =>
    shakeFormingJitter time (rng (65536 + 3 * ip.1)) (rng (65537 + 3 * ip.1))
      (rng (65538 + 3 * ip.1)) ip.2
  { s1 with particles := particles' }

/-! ### IEEE-754 model for the gesture-ratio arithmetic (C9) -/

/-- JavaScript number semantics restricted to what the bloom-factor
computation uses: finite values (as rationals), the two infinities and
`NaN`. -/
inductive JSNum where
  | num (q : ℚ)
  | posInf
  | negInf
  | nan
deriving DecidableEq

/-- JS subtraction. -/
def jsub : JSNum → JSNum → JSNum
  | JSNum.num a, JSNum.num b => JSNum.num (a - b)
  | JSNum.posInf, JSNum.num _ => JSNum.posInf
  | JSNum.negInf, JSNum.num _ => JSNum.negInf
  | JSNum.num _, JSNum.posInf => JSNum.negInf
  | JSNum.num _, JSNum.negInf => JSNum.posInf
  | JSNum.posInf, JSNum.negInf => JSNum.posInf
  | JSNum.negInf, JSNum.posInf => JSNum.negInf
  | _, _ => JSNum.nan

/-- JS addition. -/
def jadd : JSNum → JSNum → JSNum
  | JSNum.num a, JSNum.num b => JSNum.num (a + b)
  | JSNum.posInf, JSNum.num _ => JSNum.posInf
  | JSNum.negInf, JSNum.num _ => JSNum.negInf
  | JSNum.num _, JSNum.posInf => JSNum.posInf
  | JSNum.num _, JSNum.negInf => JSNum.negInf
  | JSNum.posInf, JSNum.posInf => JSNum.posInf
  | JSNum.negInf, JSNum.negInf => JSNum.negInf
  | _, _ => JSNum.nan

/-- JS multiplication. -/
def jmul : JSNum → JSNum → JSNum
  | JSNum.num a, JSNum.num b => JSNum.num (a * b)
  | JSNum.posInf, JSNum.num b =>
      if b = 0 then JSNum.nan else if 0 < b then JSNum.posInf else JSNum.negInf
  | JSNum.num a, JSNum.posInf =>
      if a = 0 then JSNum.nan else if 0 < a then JSNum.posInf else JSNum.negInf
  | JSNum.negInf, JSNum.num b =>
      if b = 0 then JSNum.nan else if 0 < b then JSNum.negInf else JSNum.posInf
  | JSNum.num a, JSNum.negInf =>
      if a = 0 then JSNum.nan else if 0 < a then JSNum.negInf else JSNum.posInf
  | JSNum.posInf, JSNum.posInf => JSNum.posInf
  | JSNum.negInf, JSNum.negInf => JSNum.posInf
  | JSNum.posInf, JSNum.negInf => JSNum.negInf
  | JSNum.negInf, JSNum.posInf => JSNum.negInf
  | _, _ => JSNum.nan

/-- JS division (the interesting cases: `x / 0` is `NaN` when `x = 0`
and a signed infinity otherwise). -/
def jdiv : JSNum → JSNum → JSNum
  | JSNum.num a, JSNum.num b =>
      if b = 0 then
        if a = 0 then JSNum.nan
        else if 0 < a then JSNum.posInf else JSNum.negInf
      else JSNum.num (a / b)
  | JSNum.posInf, JSNum.num b =>
      if 0 ≤ b then JSNum.posInf else JSNum.negInf
  | JSNum.negInf, JSNum.num b =>
      if 0 ≤ b then JSNum.negInf else JSNum.posInf
  | JSNum.num _, JSNum.posInf => JSNum.num 0
  | JSNum.num _, JSNum.negInf => JSNum.num 0
  | _, _ => JSNum.nan

/-- JS `Math.max` (any `NaN` argument wins). -/
def jmax : JSNum → JSNum → JSNum
  | JSNum.num a, JSNum.num b => JSNum.num (max a b)
  | JSNum.posInf, JSNum.num _ => JSNum.posInf
  | JSNum.num _, JSNum.posInf => JSNum.posInf
  | JSNum.negInf, b => if b = JSNum.nan then JSNum.nan else b
  | a, JSNum.negInf => if a = JSNum.nan then JSNum.nan else a
  | JSNum.posInf, JSNum.posInf => JSNum.posInf
  | _, _ => JSNum.nan

/-- JS `Math.min` (any `NaN` argument wins). -/
def jmin : JSNum → JSNum → JSNum
  | JSNum.num a, JSNum.num b => JSNum.num (min a b)
  | JSNum.negInf, JSNum.num _ => JSNum.negInf
  | JSNum.num _, JSNum.negInf => JSNum.negInf
  | JSNum.posInf, b => if b = JSNum.nan then JSNum.nan else b
  | a, JSNum.posInf => if a = JSNum.nan then JSNum.nan else a
  | JSNum.negInf, JSNum.negInf => JSNum.negInf
  | _, _ => JSNum.nan

/-- The bloom-factor computation of `BloomController.onTouchMove` under
JS number semantics: the denominator `initialDistance` is used with no
epsilon guard. -/
def jsBloomFactor (currentDistance initialDistance : JSNum) : JSNum :=
  jmin (JSNum.num 1)
    (jmax (JSNum.num 0)
      (jmul (jsub (jdiv currentDistance initialDistance) (JSNum.num 1))
        (JSNum.num (8/10))))

/-- One component of the blended rendering
`render = a * (1 - mix) + b * mix` under JS number semantics, as
`ParticleSystem.update` would execute it on a propagated mix. -/
def jsLerp (a b mix : JSNum) : JSNum :=
  jadd (jmul a (jsub (JSNum.num 1) mix)) (jmul b mix)

/-! ### Concrete inputs used to instantiate theorems -/

/-- A concrete particle used to instantiate theorems about the blend. -/
noncomputable def sampleParticle : Particle :=
  { x := 1, y := 2, z := 3, vx := 0, vy := 0, vz := 0,
    role := Role.shape, state := PState.forming,
    baseSize := 1, twinkleSpeed := 0, twinkleOffset := 0,
    bloomX := 10, bloomY := 20, bloomZ := 30, bloomMix := 1,
    shapeX := 4, shapeY := 5, shapeZ := 6, shapeMix := 0 }

/-- A concrete half-formed particle: position 0, shape target 100,
`shapeMix = 1/2`, no bloom. -/
noncomputable def halfFormedParticle : Particle :=
  { x := 0, y := 0, z := 0, vx := 0, vy := 0, vz := 0,
    role := Role.shape, state := PState.forming,
    baseSize := 1, twinkleSpeed := 0, twinkleOffset := 0,
    bloomX := 0, bloomY := 0, bloomZ := 0, bloomMix := 0,
    shapeX := 100, shapeY := 100, shapeZ := 100, shapeMix := 1/2 }

/-- The half-formed particle at completed formation
(`shapeMix = 1`, no bloom). -/
noncomputable def formedParticle : Particle :=
  { halfFormedParticle with shapeMix := 1 }

/-- A concrete ready, idle shake-controller state. -/
noncomputable def idleShakeState : ShakeState :=
  { isReady := true, isShaking := false, lastShakeTime := 0,
    currentShapeIndex := 0, particles := [] }

/-- A concrete shaking state whose last qualifying sample was at time 0. -/
noncomputable def shakingState : ShakeState :=
  { isReady := true, isShaking := true, lastShakeTime := 0,
    currentShapeIndex := 0, particles := [halfFormedParticle] }

/-! ## Theorems -/

/-- C1: for every particle, the render position written by
`ParticleSystem.update` equals the two-stage linear interpolation
`lerp(lerp(position, shapeTarget, shapeMix), bloomTarget, bloomMix)`,
with boundary exactness: a mix of 0 leaves the previous layer's value
unchanged and a mix of 1 yields that layer's target exactly; and the
update writes exactly `renderPos` of the stepped particle for every
slot. -/
theorem C1_render_two_stage_lerp (p : Particle) :
    renderPos p =
      (lerp (lerp p.x p.shapeX p.shapeMix) p.bloomX p.bloomMix,
       lerp (lerp p.y p.shapeY p.shapeMix) p.bloomY p.bloomMix,
       lerp (lerp p.z p.shapeZ p.shapeMix) p.bloomZ p.bloomMix) ∧
    (p.shapeMix = 0 → shapeBlend p = (p.x, p.y, p.z)) ∧
    (p.shapeMix = 1 → shapeBlend p = (p.shapeX, p.shapeY, p.shapeZ)) ∧
    (p.bloomMix = 0 → renderPos p = shapeBlend p) ∧
    (p.bloomMix = 1 → renderPos p = (p.bloomX, p.bloomY, p.bloomZ)) ∧
    (∀ rng dt time mouse sys,
      (updateSystem rng dt time mouse sys).2.1 =
        ((updateSystem rng dt time mouse sys).1.particles).map renderPos) := by
  refine ⟨?_, ?_, ?_, ?_, ?_, ?_⟩
  · simp only [renderPos, shapeBlend, lerp, Prod.mk.injEq]
    refine ⟨by ring, by ring, by ring⟩
  · intro h
    simp [shapeBlend, h]
  · intro h
    simp [shapeBlend, h]
  · intro h
    simp [renderPos, h]
  · intro h
    simp [renderPos, shapeBlend, h]
  · intro rng dt time mouse sys
    rfl

/-- C1 witness: `sampleParticle` has `bloomMix = 1`; its render position
is exactly the bloom target. -/
theorem C1_render_two_stage_lerp_witness :
    renderPos sampleParticle =
      (sampleParticle.bloomX, sampleParticle.bloomY, sampleParticle.bloomZ) :=
  (C1_render_two_stage_lerp sampleParticle).2.2.2.2.1 rfl

/-- C6: during a two-finger pinch the bloom factor equals
`clamp01((currentDistance/initialDistance - 1) * sensitivity)` with
sensitivity 0.8; for initial 100 and current 150 it is exactly 0.4; it
always lies in `[0,1]`; and it is monotone in the distance ratio. -/
theorem C6_pinch_bloom_factor (currentDistance initialDistance : ℝ) :
    touchBloomFactor 150 100 = 2/5 ∧
    touchBloomFactor currentDistance initialDistance =
      clamp01 ((currentDistance / initialDistance - 1) * bloomSensitivity) ∧
    touchBloomFactor currentDistance initialDistance =
      ratioBloomFactor (currentDistance / initialDistance) ∧
    (∀ r : ℝ, 0 ≤ ratioBloomFactor r ∧ ratioBloomFactor r ≤ 1) ∧
    (∀ r s : ℝ, r ≤ s → ratioBloomFactor r ≤ ratioBloomFactor s) := by
  refine ⟨by norm_num [touchBloomFactor], rfl, rfl, ?_, ?_⟩
  · intro r
    exact ⟨le_min zero_le_one (le_max_left 0 _), min_le_left _ _⟩
  · intro r s h
    refine min_le_min le_rfl (max_le_max le_rfl ?_)
    nlinarith

/-- C6 witness: monotonicity applied at the concrete ratios 1 and 3/2. -/
theorem C6_pinch_bloom_factor_witness :
    ratioBloomFactor 1 ≤ ratioBloomFactor (3/2) :=
  (C6_pinch_bloom_factor 150 100).2.2.2.2 1 (3/2) (by norm_num)

/-- C2 counterexample: the celebration burst
(`gsap.to(bloomParticles, bloomMix := 1.1, yoyo)`) drives `bloomMix` to
1.1 at the end of its forward leg (eased progress 1, starting from a
full mix of 1), which is outside `[0,1]` — so the claim that no
operation ever sets a mix outside `[0,1]` is false. -/
theorem C2_counterexample :
    celebrationBloomMix 1 1 = 11/10 ∧ ¬ celebrationBloomMix 1 1 ≤ 1 := by
  norm_num [celebrationBloomMix, power2Out]

/-- C2 (amended): every mix-writing operation keeps `shapeMix` and
`bloomMix` in `[0,1]` — the three clamped bloom-factor sources, the
formation tween (`power3.out` of a 0 - 1 proxy), the bloom update
assignment, the prepare initialisation and both explosion paths — except
the celebration burst, whose tween raises `bloomMix` above 1 but never
above 1.1. -/
theorem C2_mix_ranges :
    (∀ c i : ℝ, 0 ≤ touchBloomFactor c i ∧ touchBloomFactor c i ≤ 1) ∧
    (∀ prev d : ℝ, 0 ≤ wheelBloomFactor prev d ∧ wheelBloomFactor prev d ≤ 1) ∧
    (∀ a b : ℝ, 0 ≤ mouseBloomFactor a b ∧ mouseBloomFactor a b ≤ 1) ∧
    (∀ t : ℝ, 0 ≤ t → t ≤ 1 →
      0 ≤ formationShapeMix t ∧ formationShapeMix t ≤ 1) ∧
    (∀ c tgt f p, (updateBloomParticle c tgt f p).bloomMix = f) ∧
    (∀ p, (prepareBloomParticle p).bloomMix = 0) ∧
    (∀ r1 r2 r3 p, (bloomReleaseParticle r1 r2 r3 p).bloomMix = 0 ∧
      (bloomReleaseParticle r1 r2 r3 p).shapeMix = 0) ∧
    (∀ r1 r2 r3 p, (stopShakeExplodeParticle r1 r2 r3 p).shapeMix = 0) ∧
    (∀ start e : ℝ, 0 ≤ start → start ≤ 1 → 0 ≤ e → e ≤ 1 →
      0 ≤ celebrationBloomMix start e ∧
      celebrationBloomMix start e ≤ 11/10) := by
  refine ⟨?_, ?_, ?_, ?_, fun _ _ _ _ => rfl, fun _ => rfl,
    fun _ _ _ _ => ⟨rfl, rfl⟩, fun _ _ _ _ => rfl, ?_⟩
  · intro c i
    exact ⟨le_min zero_le_one (le_max_left 0 _), min_le_left _ _⟩
  · intro prev d
    exact ⟨le_min zero_le_one (le_max_left 0 _), min_le_left _ _⟩
  · intro a b
    exact ⟨le_min zero_le_one (le_max_left 0 _), min_le_left _ _⟩
  · intro t h0 h1
    have h1t : (0:ℝ) ≤ 1 - t := by linarith
    constructor
    · have : (1 - t) ^ 3 ≤ 1 := by
        nlinarith [mul_nonneg h0 h1t, pow_nonneg h0 3]
      simp only [formationShapeMix, power3Out]
      linarith
    · have : 0 ≤ (1 - t) ^ 3 := pow_nonneg h1t 3
      simp only [formationShapeMix, power3Out]
      linarith
  · intro start e hs0 hs1 he0 he1
    have hp0 : 0 ≤ power2Out e := by
      simp only [power2Out]
      nlinarith
    have hp1 : power2Out e ≤ 1 := by
      simp only [power2Out]
      nlinarith [sq_nonneg (1 - e)]
    constructor
    · simp only [celebrationBloomMix]
      nlinarith
    · simp only [celebrationBloomMix]
      nlinarith

/-- C2 witness: the celebration-mix bound applied at start 1 and eased
progress 1/2. -/
theorem C2_mix_ranges_witness :
    0 ≤ celebrationBloomMix 1 (1/2) ∧ celebrationBloomMix 1 (1/2) ≤ 11/10 :=
  C2_mix_ranges.2.2.2.2.2.2.2.2 1 (1/2) (by norm_num) (by norm_num)
    (by norm_num) (by norm_num)

/-- C9: the gesture-ratio denominator is NOT epsilon-guarded.  Under JS
number semantics `0/0` yields `NaN`, which survives the `max`/`min`
clamp and would be written to `bloomMix`, whence the blended render
position is `NaN` too; a nonzero numerator over a zero denominator
saturates to a factor of 1; with a nonzero denominator the factor is the
finite clamped value (0.4 at 150 over 100). -/
theorem C9_ratio_unguarded :
    jsBloomFactor (JSNum.num 0) (JSNum.num 0) = JSNum.nan ∧
    jsBloomFactor (JSNum.num 150) (JSNum.num 0) = JSNum.num 1 ∧
    (∀ a b : ℚ, jsLerp (JSNum.num a) (JSNum.num b) JSNum.nan = JSNum.nan) ∧
    jsBloomFactor (JSNum.num 150) (JSNum.num 100) = JSNum.num (2/5) := by
  refine ⟨by decide, ?_, fun a b => rfl, ?_⟩
  · norm_num [jsBloomFactor, jdiv, jsub, jmul, jmax, jmin]
    rintro ⟨⟩
  · norm_num [jsBloomFactor, jdiv, jsub, jmul, jmax, jmin,
      max_eq_right, min_eq_right]

/-- C3: the particle population is fixed: `createPool` builds exactly
`maxParticles` records; the system update, the shake explosion, the
formation assignment and the shake tick all preserve the particle-list
length; and boundary recycling mutates only position and velocity,
leaving role, state, targets, mixes and render attributes unchanged. -/
theorem C3_population_invariant :
    (∀ rng isMobile n, (createPool rng isMobile n).length = n) ∧
    (∀ rng dt time mouse sys,
      ((updateSystem rng dt time mouse sys).1).particles.length =
        sys.particles.length) ∧
    (∀ rng s, (stopShaking rng s).particles.length = s.particles.length) ∧
    (∀ points s, (startShaking points s).particles.length =
      s.particles.length) ∧
    (∀ rng now time s, (shakeUpdate rng now time s).particles.length =
      s.particles.length) ∧
    (∀ r1 r2 r3 r4 r5 r6 p,
      (recycleParticle r1 r2 r3 r4 r5 r6 p).role = p.role ∧
      (recycleParticle r1 r2 r3 r4 r5 r6 p).state = p.state ∧
      (recycleParticle r1 r2 r3 r4 r5 r6 p).shapeX = p.shapeX ∧
      (recycleParticle r1 r2 r3 r4 r5 r6 p).shapeY = p.shapeY ∧
      (recycleParticle r1 r2 r3 r4 r5 r6 p).shapeZ = p.shapeZ ∧
      (recycleParticle r1 r2 r3 r4 r5 r6 p).shapeMix = p.shapeMix ∧
      (recycleParticle r1 r2 r3 r4 r5 r6 p).bloomX = p.bloomX ∧
      (recycleParticle r1 r2 r3 r4 r5 r6 p).bloomY = p.bloomY ∧
      (recycleParticle r1 r2 r3 r4 r5 r6 p).bloomZ = p.bloomZ ∧
      (recycleParticle r1 r2 r3 r4 r5 r6 p).bloomMix = p.bloomMix ∧
      (recycleParticle r1 r2 r3 r4 r5 r6 p).baseSize = p.baseSize) := by
  refine ⟨?_, ?_, ?_, ?_, ?_, ?_⟩
  · intro rng isMobile n
    simp [createPool]
  · intro rng dt time mouse sys
    simp [updateSystem]
  · intro rng s
    simp [stopShaking]
  · intro points s
    simp [startShaking]
  · intro rng now time s
    simp only [shakeUpdate, List.length_map, List.enum_length]
    split
    · simp [stopShaking]
    · rfl
  · intro r1 r2 r3 r4 r5 r6 p
    exact ⟨rfl, rfl, rfl, rfl, rfl, rfl, rfl, rfl, rfl, rfl, rfl⟩

/-- Iterating the decay pass one more tick. -/
theorem decayIter_succ (dt : ℝ) (n : ℕ) (l : List Pulse) :
    decayIter dt (n + 1) l = decayPulses dt (decayIter dt n l) :=
  Function.iterate_succ_apply' _ _ _

/-- A single pulse that is still alive after `k` ticks has decayed by
exactly `k * dt * 1.5`. -/
theorem decayIter_single_live (dt : ℝ) (hdt : 0 ≤ dt) (pu : Pulse) (k : ℕ)
    (h : 0 < pu.life - k * (dt * (3/2))) :
    decayIter dt k [pu] = [{ pu with life := pu.life - k * (dt * (3/2)) }] := by
  induction k with
  | zero =>
    obtain ⟨x, y, s, r, life⟩ := pu
    simp [decayIter]
  | succ k ih =>
    have hk : 0 < pu.life - k * (dt * (3/2)) := by
      push_cast at h
      nlinarith
    rw [decayIter_succ, ih hk]
    have hlive : 0 < pu.life - k * (dt * (3/2)) - dt * (3/2) := by
      push_cast at h
      nlinarith
    simp only [decayPulses, List.map_cons, List.map_nil, List.filter_cons,
      List.filter_nil, decide_eq_true_eq]
    rw [if_pos hlive]
    obtain ⟨x, y, s, r, life⟩ := pu
    simp only [List.cons.injEq, Pulse.mk.injEq, and_true, true_and]
    push_cast
    ring

/-- C10: a pulse is created with `life = 1`; each tick decays life by
`dt * 1.5` and discards the pulse at `life ≤ 0`, so for any fixed
`dt > 0` it is removed after exactly `ceil(2 / (3 dt))` ticks; and the
pulse list is capped at 10, the oldest pulse being shifted off when an
addition would exceed the cap. -/
theorem C10_pulse_lifecycle :
    (∀ (x y s r : ℝ) (l : List Pulse), l.length < 10 →
      addPulse x y s r l = l ++ [⟨x, y, s, r, 1⟩]) ∧
    (∀ (x y s r : ℝ) (l : List Pulse), l.length ≤ 10 →
      (addPulse x y s r l).length ≤ 10) ∧
    (∀ (x y s r : ℝ) (a : Pulse) (l : List Pulse), (a :: l).length = 10 →
      addPulse x y s r (a :: l) = l ++ [⟨x, y, s, r, 1⟩]) ∧
    (∀ (dt : ℝ) (l : List Pulse), (decayPulses dt l).length ≤ l.length) ∧
    (∀ dt : ℝ, 0 < dt → ∀ x y s r : ℝ, ∀ k < Nat.ceil (2 / (3 * dt)),
      decayIter dt k [(⟨x, y, s, r, 1⟩ : Pulse)] =
        [⟨x, y, s, r, 1 - k * (dt * (3/2))⟩]) ∧
    (∀ dt : ℝ, 0 < dt → ∀ x y s r : ℝ,
      decayIter dt (Nat.ceil (2 / (3 * dt))) [(⟨x, y, s, r, 1⟩ : Pulse)] =
        []) := by
  have hlive : ∀ dt : ℝ, 0 < dt → ∀ x y s r : ℝ,
      ∀ k < Nat.ceil (2 / (3 * dt)),
      decayIter dt k [(⟨x, y, s, r, 1⟩ : Pulse)] =
        [⟨x, y, s, r, 1 - k * (dt * (3/2))⟩] := by
    intro dt hdt x y s r k hk
    have hk' : (k : ℝ) < 2 / (3 * dt) := Nat.lt_ceil.mp hk
    have h3 : (0:ℝ) < 3 * dt := by linarith
    have hklt : (k : ℝ) * (3 * dt) < 2 := (lt_div_iff₀ h3).mp hk'
    exact decayIter_single_live dt hdt.le ⟨x, y, s, r, 1⟩ k (by nlinarith)
  refine ⟨?_, ?_, ?_, ?_, hlive, ?_⟩
  · intro x y s r l hl
    simp only [addPulse, List.length_append, List.length_singleton]
    rw [if_neg (by omega)]
  · intro x y s r l hl
    simp only [addPulse]
    split
    · rename_i hcond
      simp only [List.length_append, List.length_singleton] at hcond
      simp only [List.length_tail, List.length_append, List.length_singleton]
      omega
    · rename_i hcond
      simp only [List.length_append, List.length_singleton] at hcond
      simp only [List.length_append, List.length_singleton]
      omega
  · intro x y s r a l hl
    simp only [addPulse, List.cons_append, List.length_cons,
      List.length_append, List.length_singleton]
    rw [if_pos (by simp at hl; omega)]
    rfl
  · intro dt l
    simp only [decayPulses]
    exact le_trans (List.length_filter_le _ _) (by simp)
  · intro dt hdt x y s r
    have hN : 0 < Nat.ceil (2 / (3 * dt)) := by
      rw [Nat.ceil_pos]
      positivity
    obtain ⟨m, hm⟩ : ∃ m, Nat.ceil (2 / (3 * dt)) = m + 1 :=
      ⟨Nat.ceil (2 / (3 * dt)) - 1, by omega⟩
    rw [hm, decayIter_succ]
    rw [hlive dt hdt x y s r m (by omega)]
    have h3 : (0:ℝ) < 3 * dt := by linarith
    have hge : 2 / (3 * dt) ≤ (m : ℝ) + 1 := by
      have := Nat.le_ceil (2 / (3 * dt))
      rw [hm] at this
      push_cast at this
      linarith
    have hge2 : (2:ℝ) ≤ ((m : ℝ) + 1) * (3 * dt) := (div_le_iff₀ h3).mp hge
    have hdead : ¬ 0 < 1 - (m : ℝ) * (dt * (3/2)) - dt * (3/2) := by
      nlinarith
    simp only [decayPulses, List.map_cons, List.map_nil, List.filter_cons,
      List.filter_nil, decide_eq_true_eq]
    rw [if_neg hdead]

/-- C10 witness: with `dt = 0.1` a fresh pulse is gone after
`ceil(2 / 0.3)` ticks. -/
theorem C10_pulse_lifecycle_witness :
    decayIter (1/10) (Nat.ceil ((2:ℝ) / (3 * (1/10))))
      [(⟨0, 0, 80, 150, 1⟩ : Pulse)] = [] :=
  C10_pulse_lifecycle.2.2.2.2.2 (1/10) (by norm_num) 0 0 80 150

/-- C5: after the warm-up guard, a magnitude-20 sample while idle starts
shaking (start threshold 8) and stamps the rolling timestamp; while
shaking, any sample above the sustain threshold 3 refreshes the
timestamp; the tick update leaves the shaking state through the
`stopShaking` explosion exactly when the last qualifying sample is older
than the 1500 ms sustain timeout; before the warm-up guard every sample
is ignored. -/
theorem C5_shake_state_machine :
    (∀ points now mag (s : ShakeState), s.isReady = false →
      handleShake points now mag s = s) ∧
    (∀ points now (s : ShakeState), s.isReady = true → s.isShaking = false →
      (handleShake points now 20 s).isShaking = true ∧
      (handleShake points now 20 s).lastShakeTime = now) ∧
    (∀ points now mag (s : ShakeState), s.isReady = true →
      s.isShaking = true → mag > sustainThreshold →
      (handleShake points now mag s).lastShakeTime = now ∧
      (handleShake points now mag s).isShaking = true) ∧
    (∀ rng now time (s : ShakeState), s.isShaking = true →
      now - s.lastShakeTime > sustainTimeout →
      (shakeUpdate rng now time s).isShaking = false ∧
      (shakeUpdate rng now time s).particles =
        (stopShaking rng s).particles.enum.map (fun ip =>
          shakeFormingJitter time (rng (65536 + 3 * ip.1))
            (rng (65537 + 3 * ip.1)) (rng (65538 + 3 * ip.1)) ip.2)) ∧
    (∀ rng now time (s : ShakeState), s.isShaking = true →
      ¬ now - s.lastShakeTime > sustainTimeout →
      (shakeUpdate rng now time s).isShaking = true) := by
  refine ⟨?_, ?_, ?_, ?_, ?_⟩
  · intro points now mag s h
    simp [handleShake, h]
  · intro points now s h h2
    have h20 : (20:ℝ) > shakeThreshold := by norm_num [shakeThreshold]
    simp [handleShake, h, h2, h20, startShaking]
  · intro points now mag s h h2 h3
    by_cases hm : mag > shakeThreshold
    · simp [handleShake, h, h2, hm, startShaking]
    · simp [handleShake, h, h2, h3, hm]
  · intro rng now time s h ht
    constructor
    · simp [shakeUpdate, h, ht, stopShaking]
    · simp [shakeUpdate, h, ht]
  · intro rng now time s h ht
    simp [shakeUpdate, h, ht]

/-- C5 witness: the idle-to-shaking transition on a magnitude-20 sample
at time 5. -/
theorem C5_shake_state_machine_witness :
    (handleShake [] 5 20 idleShakeState).isShaking = true ∧
    (handleShake [] 5 20 idleShakeState).lastShakeTime = 5 :=
  C5_shake_state_machine.2.1 [] 5 idleShakeState rfl rfl

/-- C8 counterexample: a forming particle at base position 0 with shape
target 100 and `shapeMix = 1/2` is exploded by `stopShaking` to base
position 100 — the shape TARGET — while its blended visual position is
50; so the claim that the explosion captures the blended position is
false. -/
theorem C8_counterexample :
    halfFormedParticle.state = PState.forming ∧
    halfFormedParticle.shapeMix = 1/2 ∧
    (stopShakeExplodeParticle 0 0 0 halfFormedParticle).x = 100 ∧
    (renderPos halfFormedParticle).1 = 50 ∧
    (stopShakeExplodeParticle 0 0 0 halfFormedParticle).x ≠
      (renderPos halfFormedParticle).1 := by
  refine ⟨rfl, rfl, rfl, ?_, ?_⟩
  · norm_num [renderPos, shapeBlend, halfFormedParticle]
  · norm_num [stopShakeExplodeParticle, renderPos, shapeBlend,
      halfFormedParticle]

/-- C8 (amended): the shake-timeout explosion sets each forming
particle's base position to its SHAPE TARGET coordinates (not the
two-layer blend), zeroes `shapeMix` and drops the particle to chaos; the
target coincides with the blended visual position only when formation is
complete and bloom-free (`shapeMix = 1`, `bloomMix = 0`); the fully
blended two-layer capture is performed only by the bloom release path
(`BloomController.onTouchEnd`).  The explosion loop's `150 + rand * 150`
impulse is a dead store: the trailing `setChaosMode()` pass of
`stopShaking` keeps the captured position, zeroed mix and chaos state
but overwrites the velocity, so the delivered outward impulse has
magnitude `120 + rand * 80 ∈ [120, 200)`. -/
theorem C8_explosion_capture (r1 r2 r3 : ℝ) (c : ℕ → ℝ) (p : Particle) :
    (stopShakeExplodeParticle r1 r2 r3 p).x = p.shapeX ∧
    (stopShakeExplodeParticle r1 r2 r3 p).y = p.shapeY ∧
    (stopShakeExplodeParticle r1 r2 r3 p).z = p.shapeZ ∧
    (stopShakeExplodeParticle r1 r2 r3 p).shapeMix = 0 ∧
    (stopShakeExplodeParticle r1 r2 r3 p).state = PState.chaos ∧
    (p.shapeMix = 1 → p.bloomMix = 0 →
      ((stopShakeExplodeParticle r1 r2 r3 p).x,
       (stopShakeExplodeParticle r1 r2 r3 p).y,
       (stopShakeExplodeParticle r1 r2 r3 p).z) = renderPos p) ∧
    (((bloomReleaseParticle r1 r2 r3 p).x,
      (bloomReleaseParticle r1 r2 r3 p).y,
      (bloomReleaseParticle r1 r2 r3 p).z) = renderPos p) ∧
    (setChaosModeParticle false c
      (stopShakeExplodeParticle r1 r2 r3 p)).x = p.shapeX ∧
    (setChaosModeParticle false c
      (stopShakeExplodeParticle r1 r2 r3 p)).y = p.shapeY ∧
    (setChaosModeParticle false c
      (stopShakeExplodeParticle r1 r2 r3 p)).z = p.shapeZ ∧
    (setChaosModeParticle false c
      (stopShakeExplodeParticle r1 r2 r3 p)).shapeMix = 0 ∧
    (setChaosModeParticle false c
      (stopShakeExplodeParticle r1 r2 r3 p)).state = PState.chaos ∧
    ((setChaosModeParticle false c
        (stopShakeExplodeParticle r1 r2 r3 p)).vx ^ 2 +
      (setChaosModeParticle false c
        (stopShakeExplodeParticle r1 r2 r3 p)).vy ^ 2 =
        (120 + c 3 * 80) ^ 2) ∧
    (0 ≤ c 3 → c 3 < 1 →
      120 ≤ 120 + c 3 * 80 ∧ 120 + c 3 * 80 < 200) := by
  refine ⟨rfl, rfl, rfl, rfl, rfl, ?_, ?_, rfl, rfl, rfl, rfl, rfl, ?_, ?_⟩
  · intro h1 h2
    simp [stopShakeExplodeParticle, renderPos, shapeBlend, h1, h2]
  · simp [bloomReleaseParticle, renderPos, shapeBlend]
  · show (Real.cos (c 4 * (2 * Real.pi)) * (120 + c 3 * 80)) ^ 2 +
      (Real.sin (c 4 * (2 * Real.pi)) * (120 + c 3 * 80)) ^ 2 =
        (120 + c 3 * 80) ^ 2
    linear_combination ((120 + c 3 * 80) ^ 2) *
      Real.sin_sq_add_cos_sq (c 4 * (2 * Real.pi))
  · intro h1 h2
    exact ⟨by nlinarith, by nlinarith⟩

/-- C8 witness: on a completed formation (`shapeMix = 1`, `bloomMix = 0`)
the captured target equals the blended position, and with the draw 1/2
the delivered post-`setChaosMode` impulse lies in `[120, 200)`. -/
theorem C8_explosion_capture_witness :
    ((stopShakeExplodeParticle 0 0 0 formedParticle).x,
     (stopShakeExplodeParticle 0 0 0 formedParticle).y,
     (stopShakeExplodeParticle 0 0 0 formedParticle).z) =
      renderPos formedParticle ∧
    (120 ≤ 120 + (fun _ => (1/2 : ℝ)) 3 * 80 ∧
      120 + (fun _ => (1/2 : ℝ)) 3 * 80 < 200) :=
  ⟨(C8_explosion_capture 0 0 0 (fun _ => 1/2) formedParticle).2.2.2.2.2.1
      rfl rfl,
   (C8_explosion_capture 0 0 0 (fun _ => 1/2)
      formedParticle).2.2.2.2.2.2.2.2.2.2.2.2.2 (by norm_num) (by norm_num)⟩

/-- The squared norm of a spherical-coordinate point is the squared
radius. -/
theorem shell_norm (R phi theta : ℝ) :
    (R * Real.sin phi * Real.cos theta) ^ 2 +
      (R * Real.sin phi * Real.sin theta) ^ 2 + (R * Real.cos phi) ^ 2 =
      R ^ 2 := by
  linear_combination R ^ 2 * Real.sin phi ^ 2 * Real.sin_sq_add_cos_sq theta +
    R ^ 2 * Real.sin_sq_add_cos_sq phi

/-- Two points with different squared norms differ somewhere, so the
squared distance between them is nonzero. -/
theorem sum_sq_ne_zero_of_norm_ne (tx ty tz px py pz R P : ℝ)
    (ht : tx ^ 2 + ty ^ 2 + tz ^ 2 = R ^ 2)
    (hp : px ^ 2 + py ^ 2 + pz ^ 2 = P ^ 2)
    (hne : R ^ 2 ≠ P ^ 2) :
    (tx - px) * (tx - px) + (ty - py) * (ty - py) + (tz - pz) * (tz - pz) ≠
      0 := by
  intro h
  have hdx : tx - px = 0 := mul_self_eq_zero.mp (by
    nlinarith [mul_self_nonneg (ty - py), mul_self_nonneg (tz - pz),
      mul_self_nonneg (tx - px)])
  have hdy : ty - py = 0 := mul_self_eq_zero.mp (by
    nlinarith [mul_self_nonneg (ty - py), mul_self_nonneg (tz - pz),
      mul_self_nonneg (tx - px)])
  have hdz : tz - pz = 0 := mul_self_eq_zero.mp (by
    nlinarith [mul_self_nonneg (ty - py), mul_self_nonneg (tz - pz),
      mul_self_nonneg (tx - px)])
  have htx : tx = px := by linarith
  have hty : ty = py := by linarith
  have htz : tz = pz := by linarith
  apply hne
  rw [← ht, htx, hty, htz]
  exact hp

/-- A velocity aimed along a nonzero difference vector with the
`Math.sqrt(...) || 1` guard has squared norm exactly the squared
speed. -/
theorem aimed_speed (dx dy dz s : ℝ)
    (hM : dx * dx + dy * dy + dz * dz ≠ 0) :
    (dx / (if Real.sqrt (dx * dx + dy * dy + dz * dz) = 0 then 1
           else Real.sqrt (dx * dx + dy * dy + dz * dz)) * s) ^ 2 +
    (dy / (if Real.sqrt (dx * dx + dy * dy + dz * dz) = 0 then 1
           else Real.sqrt (dx * dx + dy * dy + dz * dz)) * s) ^ 2 +
    (dz / (if Real.sqrt (dx * dx + dy * dy + dz * dz) = 0 then 1
           else Real.sqrt (dx * dx + dy * dy + dz * dz)) * s) ^ 2 =
      s ^ 2 := by
  have hM' : 0 < dx * dx + dy * dy + dz * dz :=
    lt_of_le_of_ne
      (add_nonneg (add_nonneg (mul_self_nonneg dx) (mul_self_nonneg dy))
        (mul_self_nonneg dz))
      (Ne.symm hM)
  have hs : Real.sqrt (dx * dx + dy * dy + dz * dz) ≠ 0 := by
    rw [Real.sqrt_ne_zero']
    exact hM'
  rw [if_neg hs]
  have hsq : Real.sqrt (dx * dx + dy * dy + dz * dz) ^ 2 =
      dx * dx + dy * dy + dz * dz := Real.sq_sqrt hM'.le
  field_simp
  ring

/-- C4: a particle beyond the squared domain limit is, in the same tick,
repositioned exactly onto the 2500 spawn shell; its velocity is aimed at
a random outer-ring point whose radius lies in `[1500, 2500)`, at a speed
(velocity norm) of exactly `120 + random() * 150 ∈ [120, 270)`; and the
recycle branch fires precisely when the squared distance exceeds
`4000²`. -/
theorem C4_boundary_recycle (r1 r2 r3 r4 r5 r6 : ℝ) (p : Particle)
    (h3 : 0 ≤ r3) (h3' : r3 < 1) (h6 : 0 ≤ r6) (h6' : r6 < 1) :
    ((recycleParticle r1 r2 r3 r4 r5 r6 p).x ^ 2 +
      (recycleParticle r1 r2 r3 r4 r5 r6 p).y ^ 2 +
      (recycleParticle r1 r2 r3 r4 r5 r6 p).z ^ 2 = 2500 ^ 2) ∧
    Real.sqrt ((recycleParticle r1 r2 r3 r4 r5 r6 p).x ^ 2 +
      (recycleParticle r1 r2 r3 r4 r5 r6 p).y ^ 2 +
      (recycleParticle r1 r2 r3 r4 r5 r6 p).z ^ 2) = 2500 ∧
    (1500 ≤ 1500 + r3 * 1000 ∧ 1500 + r3 * 1000 < 2500) ∧
    ((recycleParticle r1 r2 r3 r4 r5 r6 p).vx ^ 2 +
      (recycleParticle r1 r2 r3 r4 r5 r6 p).vy ^ 2 +
      (recycleParticle r1 r2 r3 r4 r5 r6 p).vz ^ 2 =
        (120 + r6 * 150) ^ 2) ∧
    (120 ≤ 120 + r6 * 150 ∧ 120 + r6 * 150 < 270) ∧
    (distSqOf p > limitSq →
      applyBoundary r1 r2 r3 r4 r5 r6 p = recycleParticle r1 r2 r3 r4 r5 r6 p) ∧
    (¬ distSqOf p > limitSq → applyBoundary r1 r2 r3 r4 r5 r6 p = p) := by
  have hshell : (recycleParticle r1 r2 r3 r4 r5 r6 p).x ^ 2 +
      (recycleParticle r1 r2 r3 r4 r5 r6 p).y ^ 2 +
      (recycleParticle r1 r2 r3 r4 r5 r6 p).z ^ 2 = 2500 ^ 2 :=
    shell_norm 2500 (Real.arccos (2 * r2 - 1)) (r1 * (2 * Real.pi))
  have hRne : (1500 + r3 * 1000) ^ 2 ≠ (2500:ℝ) ^ 2 :=
    ne_of_lt (by nlinarith)
  refine ⟨hshell, ?_, ⟨by nlinarith, by nlinarith⟩, ?_, ⟨by nlinarith, by nlinarith⟩,
    ?_, ?_⟩
  · rw [hshell]
    rw [show ((2500:ℝ) ^ 2) = 2500 * 2500 by ring]
    exact Real.sqrt_mul_self (by norm_num)
  · exact aimed_speed _ _ _ _
      (sum_sq_ne_zero_of_norm_ne _ _ _ _ _ _ _ _
        (shell_norm (1500 + r3 * 1000) (Real.arccos (2 * r5 - 1))
          (r4 * (2 * Real.pi)))
        (shell_norm 2500 (Real.arccos (2 * r2 - 1)) (r1 * (2 * Real.pi)))
        hRne)
  · intro h
    simp [applyBoundary, h]
  · intro h
    simp [applyBoundary, h]

/-- C4 witness: the recycle contract at concrete random draws
`r3 = 1/2`, `r6 = 0` (and arbitrary angles). -/
theorem C4_boundary_recycle_witness :
    (recycleParticle 0 (1/2) (1/2) 0 (1/2) 0 sampleParticle).x ^ 2 +
      (recycleParticle 0 (1/2) (1/2) 0 (1/2) 0 sampleParticle).y ^ 2 +
      (recycleParticle 0 (1/2) (1/2) 0 (1/2) 0 sampleParticle).z ^ 2 =
      2500 ^ 2 ∧
    (recycleParticle 0 (1/2) (1/2) 0 (1/2) 0 sampleParticle).vx ^ 2 +
      (recycleParticle 0 (1/2) (1/2) 0 (1/2) 0 sampleParticle).vy ^ 2 +
      (recycleParticle 0 (1/2) (1/2) 0 (1/2) 0 sampleParticle).vz ^ 2 =
      (120 + 0 * 150) ^ 2 :=
  ⟨(C4_boundary_recycle 0 (1/2) (1/2) 0 (1/2) 0 sampleParticle
      (by norm_num) (by norm_num) (by norm_num) (by norm_num)).1,
   (C4_boundary_recycle 0 (1/2) (1/2) 0 (1/2) 0 sampleParticle
      (by norm_num) (by norm_num) (by norm_num) (by norm_num)).2.2.2.1⟩

/-- The seed value of a max fold bounds the fold from below. -/
theorem foldl_max_init (l : List ℝ) (b : ℝ) : b ≤ l.foldl max b := by
  induction l generalizing b with
  | nil => exact le_refl b
  | cons a l ih => exact le_trans (le_max_left b a) (ih (max b a))

/-- Every member of a list bounds its max fold from below. -/
theorem foldl_max_mem (l : List ℝ) (b x : ℝ) (hx : x ∈ l) :
    x ≤ l.foldl max b := by
  induction l generalizing b with
  | nil => cases hx
  | cons a l ih =>
    rcases List.mem_cons.mp hx with h | h
    · subst h
      exact le_trans (le_max_right b x) (foldl_max_init l (max b x))
    · exact ih (max b a) h

/-- A lower bound of the seed and of every member is a lower bound of a
min fold. -/
theorem foldl_min_ge (l : List ℝ) (b c : ℝ) (hb : c ≤ b)
    (h : ∀ x ∈ l, c ≤ x) : c ≤ l.foldl min b := by
  induction l generalizing b with
  | nil => exact hb
  | cons a l ih =>
    exact ih (min b a) (le_min hb (h a (List.mem_cons_self a l)))
      (fun x hx => h x (List.mem_cons_of_mem a hx))

/-- Every member is at most `listMax`. -/
theorem listMax_ge (l : List ℝ) (x : ℝ) (hx : x ∈ l) : x ≤ listMax l := by
  cases l with
  | nil => cases hx
  | cons a l =>
    rcases List.mem_cons.mp hx with h | h
    · subst h
      exact foldl_max_init l x
    · exact foldl_max_mem l a x h

/-- A common lower bound of a nonempty list bounds `listMin`. -/
theorem listMin_ge (l : List ℝ) (c : ℝ) (hne : l ≠ [])
    (h : ∀ x ∈ l, c ≤ x) : c ≤ listMin l := by
  cases l with
  | nil => exact absurd rfl hne
  | cons a l =>
    exact foldl_min_ge l a c (h a (List.mem_cons_self a l))
      (fun x hx => h x (List.mem_cons_of_mem a hx))

/-- The heart curve's y formula as a polynomial in `cos t`. -/
theorem heart_g_poly (t : ℝ) :
    13 * Real.cos t - 5 * Real.cos (2 * t) - 2 * Real.cos (3 * t) -
      Real.cos (4 * t) =
    -8 * Real.cos t ^ 4 - 8 * Real.cos t ^ 3 - 2 * Real.cos t ^ 2 +
      19 * Real.cos t + 4 := by
  have h2 : Real.cos (2 * t) = 2 * Real.cos t ^ 2 - 1 := Real.cos_two_mul t
  have h3 : Real.cos (3 * t) = 4 * Real.cos t ^ 3 - 3 * Real.cos t :=
    Real.cos_three_mul t
  have h4 : Real.cos (4 * t) = 2 * Real.cos (2 * t) ^ 2 - 1 := by
    have h := Real.cos_two_mul (2 * t)
    rw [show (2:ℝ) * (2 * t) = 4 * t by ring] at h
    exact h
  rw [h4, h3, h2]
  ring

/-- The heart polynomial is globally bounded above by 13 (its maximum on
the cosine range is below 12; 13 gives slack). -/
theorem heart_poly_le (c : ℝ) :
    -8 * c ^ 4 - 8 * c ^ 3 - 2 * c ^ 2 + 19 * c + 4 ≤ 13 := by
  nlinarith [sq_nonneg (c ^ 2 + c / 2 - 3/5), sq_nonneg (c - 71/96)]

/-- The scaled heart y value is bounded below by `-325/4` for every
parameter. -/
theorem heart_y_lower (t : ℝ) :
    -(325/4 : ℝ) ≤
      -(13 * Real.cos t - 5 * Real.cos (2 * t) - 2 * Real.cos (3 * t) -
        Real.cos (4 * t)) * (100 / 16) := by
  have h := heart_g_poly t
  have h2 := heart_poly_le (Real.cos t)
  nlinarith [h, h2]

/-- Every y coordinate of `generateHeartPoints (const 1/2) 0 0 100 100`
is at least `-325/4`. -/
theorem heart_ys_lower :
    ∀ yv ∈ ysOf (generateHeartPoints (fun _ => 1/2) 0 0 100 100),
      -(325/4 : ℝ) ≤ yv := by
  intro yv hyv
  simp only [ysOf, generateHeartPoints, List.map_map, List.mem_map,
    List.mem_range, Function.comp_apply] at hyv
  obtain ⟨i, hi, rfl⟩ := hyv
  have h := heart_y_lower ((i : ℝ) / (100 : ℝ) * (2 * Real.pi))
  push_cast
  linarith

/-- The 50th sample (parameter `t = π`) of the heart has y coordinate
`425/4`. -/
theorem heart_y50_mem :
    (425/4 : ℝ) ∈ ysOf (generateHeartPoints (fun _ => 1/2) 0 0 100 100) := by
  simp only [ysOf, generateHeartPoints, List.map_map, List.mem_map,
    List.mem_range, Function.comp_apply]
  refine ⟨50, by norm_num, ?_⟩
  push_cast
  rw [show (50 : ℝ) / 100 * (2 * Real.pi) = Real.pi by ring]
  rw [show (3 : ℝ) * Real.pi = Real.pi + 2 * Real.pi by ring]
  rw [show (4 : ℝ) * Real.pi = 2 * Real.pi + 2 * Real.pi by ring]
  rw [Real.cos_add_two_pi, Real.cos_add_two_pi, Real.cos_pi,
    Real.cos_two_pi]
  norm_num

/-- The y list of the 100-point heart is nonempty. -/
theorem heart_ys_ne_nil :
    ysOf (generateHeartPoints (fun _ => 1/2) 0 0 100 100) ≠ [] := by
  have h : (ysOf (generateHeartPoints (fun _ => 1/2) 0 0 100 100)).length =
      100 := by
    simp [ysOf, generateHeartPoints]
  intro hnil
  rw [hnil] at h
  simp at h

/-- The bounding-box y centroid of the 100-point heart (centered jitter)
is at least `25/2`. -/
theorem heart_bbox_center_off :
    (25/2 : ℝ) ≤
      bboxCenterY (generateHeartPoints (fun _ => 1/2) 0 0 100 100) := by
  have hmax : (425/4 : ℝ) ≤
      listMax (ysOf (generateHeartPoints (fun _ => 1/2) 0 0 100 100)) :=
    listMax_ge _ _ heart_y50_mem
  have hmin : -(325/4 : ℝ) ≤
      listMin (ysOf (generateHeartPoints (fun _ => 1/2) 0 0 100 100)) :=
    listMin_ge _ _ heart_ys_ne_nil heart_ys_lower
  unfold bboxCenterY
  linarith

/-- C7 counterexample: `generateHeartPoints(0,0,100,100)` (with the
centered random draw 1/2, i.e. zero jitter) does return exactly 100
points, but the y centroid of their bounding box is at least `25/2`,
nowhere near 0 — the heart generator, unlike the text generator, never
runs `centerPoints`, so the claim that its output is bounding-box
centered is false. -/
theorem C7_counterexample :
    (generateHeartPoints (fun _ => 1/2) 0 0 100 100).length = 100 ∧
    (25/2 : ℝ) ≤
      bboxCenterY (generateHeartPoints (fun _ => 1/2) 0 0 100 100) ∧
    ¬ |bboxCenterY (generateHeartPoints (fun _ => 1/2) 0 0 100 100)| ≤ 1 := by
  refine ⟨by simp [generateHeartPoints], heart_bbox_center_off, ?_⟩
  intro habs
  have h := (abs_le.mp habs).2
  have h2 := heart_bbox_center_off
  linarith

/-- C7 (amended): `generateHeartPoints(0,0,100,100)` returns exactly 100
points (for any random stream, any arguments the count equals the
requested count), but the output is NOT bounding-box centered: heart
mode skips `centerPoints`, and with centered jitter the bounding box's y
centroid is `25/2` or more, far outside floating-point tolerance of 0. -/
theorem C7_heart_points (rng : ℕ → ℝ) (cx cy size : ℝ) (n : ℕ) :
    (generateHeartPoints rng cx cy size n).length = n ∧
    (25/2 : ℝ) ≤
      bboxCenterY (generateHeartPoints (fun _ => 1/2) 0 0 100 100) :=
  ⟨by simp [generateHeartPoints], heart_bbox_center_off⟩

end Valenpii
